import Mathlib

/-!
Shallow embedding of `FWCore/Framework/interface/InputSource.h` (class
`edm::InputSource`): the item-type state machine, the event/lumi limit
tracker with wall-clock rampdown, the run/lumi auxiliary snapshot cache
with its `newRun`/`newLumi` flags, and the lifecycle sentries.

The header contains the full bodies of `repeat()`, `eventLimitReached`,
`lumiLimitReached`, `limitReached`, the set/reset methods for the
auxiliary snapshots and `reset()`.  The bodies of `nextItemType`, the
sentry constructors/destructors and the default `goToEvent_` hook live in
`FWCore/Framework/src/InputSource.cc`, which is not part of this
repository snapshot; those are modelled from the spec and marked as such
in their doc comments.

The wall clock (`std::chrono::steady_clock`) is modelled by passing the
current time as an integer number of seconds: `processingStart_` is the
stored start point and `now` the clock reading, so
`duration_cast<seconds>(now - processingStart_).count()` becomes the
integer difference `now - s.processingStart_`.
-/

namespace EdmInputSource

/-- `enum class ItemType` (InputSource.h line 54). -/
inductive ItemType : Type where
  | IsInvalid
  | IsStop
  | IsFile
  | IsRun
  | IsLumi
  | IsEvent
  | IsRepeat
  | IsSynchronize
  deriving DecidableEq, Repr

/-- `enum class ItemPosition` (InputSource.h line 55). -/
inductive ItemPosition : Type where
  | Invalid
  | LastItemToBeMerged
  | NotLastItemToBeMerged
  deriving DecidableEq, Repr

/-- `class ItemTypeInfo` (InputSource.h lines 57-83): a pair of an
`ItemType` and an `ItemPosition`.  The C++ constructor
`ItemTypeInfo(ItemType type = IsInvalid, ItemPosition position = Invalid)`
accepts any combination; `ItemTypeInfo.mk` mirrors it. -/
structure ItemTypeInfo : Type where
  type_ : ItemType
  position_ : ItemPosition
  deriving DecidableEq, Repr

/-- `itemType()` accessor (line 61). -/
def ItemTypeInfo.itemType (i : ItemTypeInfo) : ItemType := i.type_

/-- `itemPosition()` accessor (line 62). -/
def ItemTypeInfo.itemPositionOf (i : ItemTypeInfo) : ItemPosition := i.position_

/-- The value of the default constructor `ItemTypeInfo()` (line 59 with
both default arguments). -/
def ItemTypeInfo.defaultInfo : ItemTypeInfo :=
  ItemTypeInfo.mk ItemType.IsInvalid ItemPosition.Invalid

/-- Implicit conversion from a bare `ItemType` (line 59 with the second
default argument): the position component is `Invalid`. -/
def ItemTypeInfo.ofItemType (t : ItemType) : ItemTypeInfo :=
  ItemTypeInfo.mk t ItemPosition.Invalid

/-- The documented invariant of `position_` (comment at lines 74-82):
`position_` should always be `Invalid` if the item type is not `IsRun`
or `IsLumi`. -/
def ItemTypeInfo.invariantHolds (i : ItemTypeInfo) : Bool :=
  decide (i.position_ = ItemPosition.Invalid) ||
    (decide (i.type_ = ItemType.IsRun) || decide (i.type_ = ItemType.IsLumi))

/-- `enum ProcessingMode` (line 85). -/
inductive ProcessingMode : Type where
  | Runs
  | RunsAndLumis
  | RunsLumisAndEvents
  deriving DecidableEq, Repr

/-- External collaborator `RunAuxiliary` (DataFormats/Provenance): only
its identity matters here. -/
structure RunAuxiliary : Type where
  run : Nat
  deriving DecidableEq, Repr

/-- External collaborator `LuminosityBlockAuxiliary`
(DataFormats/Provenance): only its identity matters here. -/
structure LuminosityBlockAuxiliary : Type where
  run : Nat
  lumi : Nat
  deriving DecidableEq, Repr

/-- External collaborator `EventID` (DataFormats/Provenance): a full
event identity (run, lumi, event). -/
structure EventID : Type where
  run : Nat
  lumi : Nat
  event : Nat
  deriving DecidableEq, Repr

/-- External collaborator `Timestamp`. -/
structure Timestamp : Type where
  value : Nat
  deriving DecidableEq, Repr

/-- The mutable state of an `edm::InputSource` (private data members,
InputSource.h lines 439-465).  `std::shared_ptr` snapshots become
`Option` (empty shared_ptr = `none`); the `steady_clock::time_point`
`processingStart_` is an integer number of seconds; registry/helper
pointers, which no claim touches, are omitted. -/
structure SourceState : Type where
  maxEvents_ : Int
  remainingEvents_ : Int
  maxLumis_ : Int
  remainingLumis_ : Int
  readCount_ : Int
  maxSecondsUntilRampdown_ : Int
  processingStart_ : Int
  processingMode_ : ProcessingMode
  processGUID_ : String
  time_ : Timestamp
  newRun_ : Bool
  newLumi_ : Bool
  eventCached_ : Bool
  state_ : ItemTypeInfo
  runAuxiliary_ : Option RunAuxiliary
  lumiAuxiliary_ : Option LuminosityBlockAuxiliary
  statusFileName_ : String
  numberOfEventsBeforeBigSkip_ : Nat
  deriving DecidableEq, Repr

/-- `repeat()` (lines 192-195): reset the remaining number of
events/lumis to the maximum number. -/
def «repeat» (s : SourceState) : SourceState :=
  { s with
    remainingEvents_ := s.maxEvents_
    remainingLumis_ := s.maxLumis_ }

/-- `maxEvents()` accessor (line 202). -/
def maxEvents (s : SourceState) : Int := s.maxEvents_

/-- `remainingEvents()` accessor (line 206). -/
def remainingEvents (s : SourceState) : Int := s.remainingEvents_

/-- `maxLuminosityBlocks()` accessor (line 210). -/
def maxLuminosityBlocks (s : SourceState) : Int := s.maxLumis_

/-- `remainingLuminosityBlocks()` accessor (line 214). -/
def remainingLuminosityBlocks (s : SourceState) : Int := s.remainingLumis_

/-- `runAuxiliary()` accessor (line 258). -/
def runAuxiliary (s : SourceState) : Option RunAuxiliary := s.runAuxiliary_

/-- `luminosityBlockAuxiliary()` accessor (line 261). -/
def luminosityBlockAuxiliary (s : SourceState) : Option LuminosityBlockAuxiliary :=
  s.lumiAuxiliary_

/-- `state()` accessor (line 358). -/
def state (s : SourceState) : ItemTypeInfo := s.state_

/-- `newRun()` accessor (line 380). -/
def newRun (s : SourceState) : Bool := s.newRun_

/-- `newLumi()` accessor (line 383). -/
def newLumi (s : SourceState) : Bool := s.newLumi_

/-- `setRunAuxiliary(RunAuxiliary* rp)` (lines 359-362): install the run
snapshot and set both `newRun_` and `newLumi_` to true. -/
def setRunAuxiliary (s : SourceState) (rp : RunAuxiliary) : SourceState :=
  { s with
    runAuxiliary_ := some rp
    newRun_ := true
    newLumi_ := true }

/-- `setLuminosityBlockAuxiliary(LuminosityBlockAuxiliary* lbp)`
(lines 363-366): install the lumi snapshot and set `newLumi_` to true. -/
def setLuminosityBlockAuxiliary (s : SourceState) (lbp : LuminosityBlockAuxiliary) :
    SourceState :=
  { s with
    lumiAuxiliary_ := some lbp
    newLumi_ := true }

/-- `resetRunAuxiliary(bool isNewRun = true)` (lines 367-370): clear the
run snapshot and assign `isNewRun` to both `newRun_` and `newLumi_`. -/
def resetRunAuxiliary (s : SourceState) (isNewRun : Bool) : SourceState :=
  { s with
    runAuxiliary_ := none
    newRun_ := isNewRun
    newLumi_ := isNewRun }

/-- `resetLuminosityBlockAuxiliary(bool isNewLumi = true)` (lines
371-374): clear the lumi snapshot and assign `isNewLumi` to
`newLumi_`. -/
def resetLuminosityBlockAuxiliary (s : SourceState) (isNewLumi : Bool) : SourceState :=
  { s with
    lumiAuxiliary_ := none
    newLumi_ := isNewLumi }

/-- `reset()` (lines 375-379): `resetLuminosityBlockAuxiliary()` with its
default argument `true`, then `resetRunAuxiliary()` with its default
argument `true`, then `state_ = ItemTypeInfo()`. -/
def reset (s : SourceState) : SourceState :=
  { resetRunAuxiliary (resetLuminosityBlockAuxiliary s true) true with
    state_ := ItemTypeInfo.defaultInfo }

/-- `eventLimitReached()` (line 399): `remainingEvents_ == 0`. -/
def eventLimitReached (s : SourceState) : Bool :=
  decide (s.remainingEvents_ = 0)

/-- `lumiLimitReached()` (lines 400-413).  `now` is the reading of
`std::chrono::steady_clock::now()` in whole seconds, so the truncated
elapsed-seconds count is `now - s.processingStart_`. -/
def lumiLimitReached (s : SourceState) (now : Int) : Bool :=
  if s.remainingLumis_ = 0 then
    true
  else if s.maxSecondsUntilRampdown_ ≤ 0 then
    false
  else if now - s.processingStart_ > s.maxSecondsUntilRampdown_ then
    true
  else
    false

/-- `limitReached()` (line 414): `eventLimitReached() || lumiLimitReached()`. -/
def limitReached (s : SourceState) (now : Int) : Bool :=
  eventLimitReached s || lumiLimitReached s now

/-- Modelled from the spec: the body of `InputSource::nextItemType`
(declared at InputSource.h line 102) is in
`FWCore/Framework/src/InputSource.cc`, which is not part of this
repository snapshot; only the limit helpers are in the header.  Per the
spec, `advance()` applies, in order: (1) if a limit has been reached,
force the type to `Stop` regardless of the adapter answer; (2) otherwise
delegate to the adapter's `getNextItemType`; (3) cache the result in
`state_` so repeated calls without an intervening read return the same
answer.  A cached answer is present exactly when the cached type is not
`IsInvalid`: the default-constructed `ItemTypeInfo`, which `reset()`
restores, marks "no cached answer, re-query the adapter".
`adapterAnswer` stands for what `getNextItemType()` would return and
`now` for the wall clock, as in `lumiLimitReached`. -/
def nextItemType (s : SourceState) (now : Int) (adapterAnswer : ItemTypeInfo) :
    ItemTypeInfo × SourceState :=
  if s.state_.type_ ≠ ItemType.IsInvalid then
    (s.state_, s)
  else
    let result :=
      if limitReached s now then ItemTypeInfo.ofItemType ItemType.IsStop
      else adapterAnswer
    (result, { s with state_ := result })

/-- The trace of results of consecutive `nextItemType` calls with no
intervening read: one call per clock reading in `nows`, state threaded
through, the adapter answer fixed (no read happened, so the adapter's
answer to "what comes next" does not change). -/
def advanceTrace (s : SourceState) (adapterAnswer : ItemTypeInfo) :
    List Int → List ItemTypeInfo
  | [] => []
  | now :: rest =>
    let step := nextItemType s now adapterAnswer
    step.1 :: advanceTrace step.2 adapterAnswer rest

/-- Modelled from the spec: the default implementation of the
random-access hook `goToEvent_` (declared virtual at InputSource.h line
428) is in `FWCore/Framework/src/InputSource.cc`, not in this snapshot.
Per the spec it reports unsupported: it returns failure (`false`) and
performs no state change. -/
def goToEventDefaultHook (s : SourceState) (_eventID : EventID) : Bool × SourceState :=
  (false, s)

/-- Modelled from the spec: `InputSource::goToEvent` (declared at
InputSource.h line 147, body in InputSource.cc, not in this snapshot)
delegates to the polymorphic hook `goToEvent_`; `hook` stands for the
adapter's override (or the default). -/
def goToEvent (hook : SourceState → EventID → Bool × SourceState)
    (s : SourceState) (eventID : EventID) : Bool × SourceState :=
  hook s eventID

/-- The six lifecycle sentry kinds declared in InputSource.h lines
267-345: `EventSourceSentry`, `LumiSourceSentry`, `RunSourceSentry`,
`ProcessBlockSourceSentry`, `FileOpenSentry`, `FileCloseSentry`. -/
inductive SentryKind : Type where
  | Event
  | Lumi
  | Run
  | ProcessBlock
  | FileOpen
  | FileClose
  deriving DecidableEq, Repr

/-- A lifecycle signal: `pre k` is the "begin" signal of sentry kind `k`
(emitted by the sentry's constructor), `post k` the matching "end"
signal (emitted by its destructor). -/
inductive Signal : Type where
  | pre (k : SentryKind)
  | post (k : SentryKind)
  deriving DecidableEq, Repr

/-- The outcome of the body of a sentry's scope: normal completion or
exit by a propagating fault. -/
inductive Outcome : Type where
  | ok
  | fault
  deriving DecidableEq, Repr

/-- Modelled from the spec: the sentry constructor and destructor bodies
are in `FWCore/Framework/src/InputSource.cc`, not in this snapshot; the
header (lines 267-345) declares each sentry non-copyable with a
constructor/destructor pair.  Per the spec, construction emits the
"begin" signal, the body of the scope runs (emitting its own signals and
finishing either normally or by a propagating fault), and destruction
emits the matching "end" signal unconditionally on every exit path.  A
body is modelled by the signals it emits together with its outcome. -/
def runWithSentry (k : SentryKind) (body : List Signal × Outcome) :
    List Signal × Outcome :=
  (Signal.pre k :: body.1 ++ [Signal.post k], body.2)

/-- A concrete source state used by the witness theorems. -/
def sampleState : SourceState :=
  { maxEvents_ := 10
    remainingEvents_ := 7
    maxLumis_ := 4
    remainingLumis_ := 2
    readCount_ := 3
    maxSecondsUntilRampdown_ := 5
    processingStart_ := 100
    processingMode_ := ProcessingMode.RunsLumisAndEvents
    processGUID_ := "guid"
    time_ := Timestamp.mk 42
    newRun_ := false
    newLumi_ := false
    eventCached_ := true
    state_ := ItemTypeInfo.defaultInfo
    runAuxiliary_ := some (RunAuxiliary.mk 1)
    lumiAuxiliary_ := some (LuminosityBlockAuxiliary.mk 1 2)
    statusFileName_ := ""
    numberOfEventsBeforeBigSkip_ := 0 }

/-- A source state configured with `maxEvents = 0` before the first
advance: `remainingEvents_` equals the configured maximum and nothing is
cached yet. -/
def zeroEventState : SourceState :=
  { sampleState with
    maxEvents_ := 0
    remainingEvents_ := 0 }

/-- A source state past its rampdown deadline: threshold 5 seconds,
processing started at time 0, lumis still remaining. -/
def rampdownState : SourceState :=
  { sampleState with
    maxSecondsUntilRampdown_ := 5
    processingStart_ := 0 }

end EdmInputSource

namespace EdmInputSource

/-- Claim C1: `repeat()` sets the remaining event count to the configured
`maxEvents_` and the remaining lumi count to the configured `maxLumis_`,
and changes no other state; in particular `processingStart_` and
`maxSecondsUntilRampdown_` are unchanged. -/
theorem repeat_restores_limits_only (s : SourceState) :
    («repeat» s).remainingEvents_ = s.maxEvents_ ∧
    («repeat» s).remainingLumis_ = s.maxLumis_ ∧
    («repeat» s).processingStart_ = s.processingStart_ ∧
    («repeat» s).maxSecondsUntilRampdown_ = s.maxSecondsUntilRampdown_ ∧
    («repeat» s).maxEvents_ = s.maxEvents_ ∧
    («repeat» s).maxLumis_ = s.maxLumis_ ∧
    («repeat» s).readCount_ = s.readCount_ ∧
    («repeat» s).processingMode_ = s.processingMode_ ∧
    («repeat» s).processGUID_ = s.processGUID_ ∧
    («repeat» s).time_ = s.time_ ∧
    («repeat» s).newRun_ = s.newRun_ ∧
    («repeat» s).newLumi_ = s.newLumi_ ∧
    («repeat» s).eventCached_ = s.eventCached_ ∧
    («repeat» s).state_ = s.state_ ∧
    («repeat» s).runAuxiliary_ = s.runAuxiliary_ ∧
    («repeat» s).lumiAuxiliary_ = s.lumiAuxiliary_ ∧
    («repeat» s).statusFileName_ = s.statusFileName_ ∧
    («repeat» s).numberOfEventsBeforeBigSkip_ = s.numberOfEventsBeforeBigSkip_ := by
  simp [«repeat»]

/-- Claim C5: after `resetRunAuxiliary b` the `runAuxiliary()` accessor
returns empty and the `newRun` flag equals `b`; after
`resetLuminosityBlockAuxiliary b` the `luminosityBlockAuxiliary()`
accessor returns empty and the `newLumi` flag equals `b`. -/
theorem resetAuxiliary_clears_snapshot_and_sets_flag (s : SourceState) (b : Bool) :
    runAuxiliary (resetRunAuxiliary s b) = none ∧
    newRun (resetRunAuxiliary s b) = b ∧
    luminosityBlockAuxiliary (resetLuminosityBlockAuxiliary s b) = none ∧
    newLumi (resetLuminosityBlockAuxiliary s b) = b := by
  simp [runAuxiliary, newRun, luminosityBlockAuxiliary, newLumi,
    resetRunAuxiliary, resetLuminosityBlockAuxiliary]

/-- Claim C6: after `reset()` both auxiliary snapshots are empty and the
cached `ItemTypeInfo` is the default (type `IsInvalid`, position
`Invalid`), so the next `advance()` does not serve a cached answer: it
recomputes from the limits and the adapter answer. -/
theorem reset_clears_caches_forces_requery (s : SourceState) :
    runAuxiliary (reset s) = none ∧
    luminosityBlockAuxiliary (reset s) = none ∧
    state (reset s) = ItemTypeInfo.mk ItemType.IsInvalid ItemPosition.Invalid ∧
    (∀ (now : Int) (a : ItemTypeInfo),
      (nextItemType (reset s) now a).1 =
        (if limitReached (reset s) now then ItemTypeInfo.ofItemType ItemType.IsStop
         else a)) := by
  refine ⟨rfl, rfl, rfl, fun now a => ?_⟩
  simp [nextItemType, reset, ItemTypeInfo.defaultInfo]

/-- Claim C10: `setRunAuxiliary` installs the run snapshot and sets both
`newRun_` and `newLumi_` to true; `setLuminosityBlockAuxiliary` installs
the lumi snapshot and sets only `newLumi_`, leaving `newRun_` unchanged;
`resetRunAuxiliary b` assigns `b` to both flags while
`resetLuminosityBlockAuxiliary b` assigns `b` only to `newLumi_`. -/
theorem setAuxiliary_flag_frame (s : SourceState) (rp : RunAuxiliary)
    (lbp : LuminosityBlockAuxiliary) (b : Bool) :
    runAuxiliary (setRunAuxiliary s rp) = some rp ∧
    newRun (setRunAuxiliary s rp) = true ∧
    newLumi (setRunAuxiliary s rp) = true ∧
    luminosityBlockAuxiliary (setLuminosityBlockAuxiliary s lbp) = some lbp ∧
    newLumi (setLuminosityBlockAuxiliary s lbp) = true ∧
    newRun (setLuminosityBlockAuxiliary s lbp) = newRun s ∧
    newRun (resetRunAuxiliary s b) = b ∧
    newLumi (resetRunAuxiliary s b) = b ∧
    newLumi (resetLuminosityBlockAuxiliary s b) = b ∧
    newRun (resetLuminosityBlockAuxiliary s b) = newRun s := by
  simp [runAuxiliary, luminosityBlockAuxiliary, newRun, newLumi,
    setRunAuxiliary, setLuminosityBlockAuxiliary,
    resetRunAuxiliary, resetLuminosityBlockAuxiliary]

/-- Claim C2: if `maxEvents` is configured to 0 (so `remainingEvents_`
equals the configured maximum, 0) then the very first `advance()` — no
answer cached yet — returns `Stop`, whatever the adapter would answer. -/
theorem first_advance_stops_when_maxEvents_zero (s : SourceState) (now : Int)
    (a : ItemTypeInfo)
    (hmax : s.maxEvents_ = 0) (hrem : s.remainingEvents_ = s.maxEvents_)
    (hfirst : s.state_.type_ = ItemType.IsInvalid) :
    ((nextItemType s now a).1).itemType = ItemType.IsStop := by
  simp [nextItemType, hfirst, limitReached, eventLimitReached, hrem, hmax,
    ItemTypeInfo.ofItemType, ItemTypeInfo.itemType]

/-- Witness for C2: the concrete `zeroEventState` satisfies the
hypotheses and its first advance yields `Stop` even though the adapter
would answer `IsEvent`. -/
theorem first_advance_stops_when_maxEvents_zero_witness :
    zeroEventState.maxEvents_ = 0 ∧
    zeroEventState.remainingEvents_ = zeroEventState.maxEvents_ ∧
    zeroEventState.state_.type_ = ItemType.IsInvalid ∧
    ((nextItemType zeroEventState 0 (ItemTypeInfo.ofItemType ItemType.IsEvent)).1).itemType
      = ItemType.IsStop :=
  ⟨by decide, by decide, by decide,
    first_advance_stops_when_maxEvents_zero zeroEventState 0
      (ItemTypeInfo.ofItemType ItemType.IsEvent) (by decide) (by decide) (by decide)⟩

/-- Claim C8: `goToEvent` with the default (non-overridden) hook returns
failure and leaves the state — in particular the cached `ItemTypeInfo` —
unchanged. -/
theorem goToEvent_default_fails_state_unchanged (s : SourceState) (eid : EventID) :
    (goToEvent goToEventDefaultHook s eid).1 = false ∧
    state ((goToEvent goToEventDefaultHook s eid).2) = state s ∧
    (goToEvent goToEventDefaultHook s eid).2 = s := by
  simp [goToEvent, goToEventDefaultHook]

/-- Claim C3: when the rampdown threshold is positive and the elapsed
wall-clock seconds strictly exceed it, `lumiLimitReached` reports the
limit reached — also with lumis remaining — and a fresh `advance()`
reports `Stop`; when the threshold is not positive, `lumiLimitReached`
holds exactly when `remainingLumis_ = 0`. -/
theorem rampdown_forces_lumi_limit (s : SourceState) (now : Int) (a : ItemTypeInfo) :
    (0 < s.maxSecondsUntilRampdown_ →
      s.maxSecondsUntilRampdown_ < now - s.processingStart_ →
      lumiLimitReached s now = true ∧
        (s.state_.type_ = ItemType.IsInvalid →
          ((nextItemType s now a).1).itemType = ItemType.IsStop)) ∧
    (s.maxSecondsUntilRampdown_ ≤ 0 →
      (lumiLimitReached s now = true ↔ s.remainingLumis_ = 0)) := by
  constructor
  · intro h1 h2
    have hlumi : lumiLimitReached s now = true := by
      unfold lumiLimitReached
      have hn0 : ¬s.maxSecondsUntilRampdown_ ≤ 0 := by omega
      rcases eq_or_ne s.remainingLumis_ 0 with h | h
      · simp [h]
      · simp [h, hn0, h2]
    refine ⟨hlumi, fun hfirst => ?_⟩
    simp [nextItemType, hfirst, limitReached, hlumi,
      ItemTypeInfo.ofItemType, ItemTypeInfo.itemType]
  · intro h0
    rcases eq_or_ne s.remainingLumis_ 0 with h | h
    · simp [lumiLimitReached, h]
    · simp [lumiLimitReached, h, h0]

/-- Witness for C3: in `rampdownState` (threshold 5 s, start at 0,
2 lumis remaining, nothing cached) the clock reading 6 makes the lumi
limit fire and the advance report `Stop`. -/
theorem rampdown_forces_lumi_limit_witness :
    lumiLimitReached rampdownState 6 = true ∧
    ((nextItemType rampdownState 6 (ItemTypeInfo.ofItemType ItemType.IsLumi)).1).itemType
      = ItemType.IsStop ∧
    (lumiLimitReached { sampleState with maxSecondsUntilRampdown_ := 0 } 9 = true ↔
      ({ sampleState with maxSecondsUntilRampdown_ := 0 } : SourceState).remainingLumis_
        = 0) :=
  ⟨((rampdown_forces_lumi_limit rampdownState 6
        (ItemTypeInfo.ofItemType ItemType.IsLumi)).1 (by decide) (by decide)).1,
   ((rampdown_forces_lumi_limit rampdownState 6
        (ItemTypeInfo.ofItemType ItemType.IsLumi)).1 (by decide) (by decide)).2 (by decide),
   (rampdown_forces_lumi_limit { sampleState with maxSecondsUntilRampdown_ := 0 } 9
        (ItemTypeInfo.ofItemType ItemType.IsLumi)).2 (by decide)⟩

end EdmInputSource

namespace EdmInputSource

/-- With an answer already cached (`state_` type not `IsInvalid`), every
consecutive `advance()` returns the cached answer and leaves the state
unchanged. -/
theorem advanceTrace_of_cached (a : ItemTypeInfo) (ns : List Int) :
    ∀ s : SourceState, s.state_.type_ ≠ ItemType.IsInvalid →
      advanceTrace s a ns = List.replicate ns.length s.state_ := by
  induction ns with
  | nil => intro s _; rfl
  | cons now rest ih =>
    intro s h
    have hfix : nextItemType s now a = (s.state_, s) := by
      unfold nextItemType; rw [if_pos h]
    simp only [advanceTrace, hfix, List.length_cons, List.replicate_succ,
      List.cons.injEq]
    exact ⟨by trivial, ih s h⟩

/-- A fresh `advance()` (nothing cached) with an adapter answer whose
type is not `IsInvalid` produces an answer whose type is not `IsInvalid`
and caches exactly that answer. -/
theorem nextItemType_fresh_caches (s : SourceState) (now : Int) (a : ItemTypeInfo)
    (h : s.state_.type_ = ItemType.IsInvalid) (ha : a.type_ ≠ ItemType.IsInvalid) :
    ((nextItemType s now a).1).type_ ≠ ItemType.IsInvalid ∧
    ((nextItemType s now a).2).state_ = (nextItemType s now a).1 := by
  unfold nextItemType
  rw [if_neg (not_not_intro h)]
  cases hl : limitReached s now <;> simp [ItemTypeInfo.ofItemType, ha]

/-- Claim C4: for every sequence of consecutive `advance()` calls with no
intervening read, every call returns the same answer as the first (the
result is cached; the adapter answer `a` is fixed because no read
happened). -/
theorem advance_idempotent_peek (s : SourceState) (a : ItemTypeInfo)
    (ha : a.type_ ≠ ItemType.IsInvalid) (now : Int) (ns : List Int) :
    advanceTrace s a (now :: ns) =
      List.replicate (ns.length + 1) ((nextItemType s now a).1) := by
  by_cases h : s.state_.type_ = ItemType.IsInvalid
  · obtain ⟨h1, h2⟩ := nextItemType_fresh_caches s now a h ha
    have hcached : ((nextItemType s now a).2).state_.type_ ≠ ItemType.IsInvalid := by
      rw [h2]; exact h1
    calc advanceTrace s a (now :: ns)
        = (nextItemType s now a).1 ::
            advanceTrace (nextItemType s now a).2 a ns := by
          simp only [advanceTrace]
      _ = (nextItemType s now a).1 ::
            List.replicate ns.length ((nextItemType s now a).2).state_ := by
          rw [advanceTrace_of_cached a ns _ hcached]
      _ = List.replicate (ns.length + 1) ((nextItemType s now a).1) := by
          rw [h2, List.replicate_succ]
  · have hfix : nextItemType s now a = (s.state_, s) := by
      unfold nextItemType; rw [if_pos h]
    rw [advanceTrace_of_cached a (now :: ns) s h, hfix]
    simp

/-- Witness for C4: three consecutive advances on `sampleState` with a
fixed adapter answer `IsFile` all return the first answer. -/
theorem advance_idempotent_peek_witness :
    (ItemTypeInfo.ofItemType ItemType.IsFile).type_ ≠ ItemType.IsInvalid ∧
    advanceTrace sampleState (ItemTypeInfo.ofItemType ItemType.IsFile) [0, 1, 2] =
      List.replicate 3
        ((nextItemType sampleState 0 (ItemTypeInfo.ofItemType ItemType.IsFile)).1) :=
  ⟨by decide,
    advance_idempotent_peek sampleState (ItemTypeInfo.ofItemType ItemType.IsFile)
      (by decide) 0 [1, 2]⟩

/-- Claim C7 (counterexample): the `ItemTypeInfo` constructor accepts any
(type, position) pair, so a value with a non-`Invalid` position and a
type outside {Run, Lumi} is constructible: `(IsEvent, LastItemToBeMerged)`
violates the documented invariant. -/
theorem itemTypeInfo_ctor_invariant_cex :
    ItemTypeInfo.invariantHolds
      (ItemTypeInfo.mk ItemType.IsEvent ItemPosition.LastItemToBeMerged) = false := by
  decide

/-- Claim C7 (amended): the invariant `position ≠ Invalid → type ∈ {Run,
Lumi}` is not enforced by the constructor, but it holds for every value
the state machine itself produces: the default value, any conversion
from a bare `ItemType`, and — whenever the cached value and the adapter
answer satisfy it — the result of `advance()` and the value it caches. -/
theorem itemTypeInfo_invariant_machine (s : SourceState) (a : ItemTypeInfo)
    (now : Int) (t : ItemType)
    (hs : ItemTypeInfo.invariantHolds s.state_ = true)
    (ha : ItemTypeInfo.invariantHolds a = true) :
    ItemTypeInfo.invariantHolds ItemTypeInfo.defaultInfo = true ∧
    ItemTypeInfo.invariantHolds (ItemTypeInfo.ofItemType t) = true ∧
    ItemTypeInfo.invariantHolds ((nextItemType s now a).1) = true ∧
    ItemTypeInfo.invariantHolds ((nextItemType s now a).2).state_ = true := by
  refine ⟨by decide, by simp [ItemTypeInfo.ofItemType, ItemTypeInfo.invariantHolds], ?_, ?_⟩
  all_goals
    unfold nextItemType
    by_cases h : s.state_.type_ = ItemType.IsInvalid
  · rw [if_neg (not_not_intro h)]
    cases hl : limitReached s now <;> simp [ItemTypeInfo.ofItemType, ha]
    decide
  · rw [if_pos h]; exact hs
  · rw [if_neg (not_not_intro h)]
    cases hl : limitReached s now <;> simp [ItemTypeInfo.ofItemType, ha]
    decide
  · rw [if_pos h]; exact hs

/-- Witness for C7's amended theorem: `sampleState` (default cached
value) and the adapter answer `(IsRun, LastItemToBeMerged)` satisfy the
hypotheses; the advance result satisfies the invariant. -/
theorem itemTypeInfo_invariant_machine_witness :
    ItemTypeInfo.invariantHolds sampleState.state_ = true ∧
    ItemTypeInfo.invariantHolds
      (ItemTypeInfo.mk ItemType.IsRun ItemPosition.LastItemToBeMerged) = true ∧
    ItemTypeInfo.invariantHolds
      ((nextItemType sampleState 0
          (ItemTypeInfo.mk ItemType.IsRun ItemPosition.LastItemToBeMerged)).1) = true :=
  ⟨by decide, by decide,
    (itemTypeInfo_invariant_machine sampleState
        (ItemTypeInfo.mk ItemType.IsRun ItemPosition.LastItemToBeMerged) 0
        ItemType.IsRun (by decide) (by decide)).2.2.1⟩

/-- Claim C9: wrapping a body in a sentry of kind `k` emits the begin
signal, then the body's own signals, then the matching end signal, and
preserves the body's outcome — also when that outcome is a propagating
fault; if the body emits no signals of kind `k`, the wrapped trace
contains exactly one begin and one end of kind `k`, in that order. -/
theorem sentry_begin_end_pairing (k : SentryKind) (tr : List Signal) (o : Outcome)
    (h : ∀ n ∈ tr, n ≠ Signal.pre k ∧ n ≠ Signal.post k) :
    (runWithSentry k (tr, o)).2 = o ∧
    (runWithSentry k (tr, o)).1 = Signal.pre k :: tr ++ [Signal.post k] ∧
    List.filter
      (fun n => decide (n = Signal.pre k) || decide (n = Signal.post k))
      (runWithSentry k (tr, o)).1 = [Signal.pre k, Signal.post k] := by
  refine ⟨rfl, rfl, ?_⟩
  have htr : List.filter
      (fun n => decide (n = Signal.pre k) || decide (n = Signal.post k)) tr = [] := by
    rw [List.filter_eq_nil_iff]
    intro n hn
    obtain ⟨h1, h2⟩ := h n hn
    simp [h1, h2]
  simp [runWithSentry, List.filter_append, htr]

/-- Witness for C9: an `Event` sentry around a body that emits a nested
`Lumi` begin/end pair and exits by a fault still yields exactly one
`Event` begin and one `Event` end, in that order, with the fault
preserved. -/
theorem sentry_begin_end_pairing_witness :
    (runWithSentry SentryKind.Event
        ([Signal.pre SentryKind.Lumi, Signal.post SentryKind.Lumi], Outcome.fault)).2
      = Outcome.fault ∧
    List.filter
      (fun n => decide (n = Signal.pre SentryKind.Event) ||
        decide (n = Signal.post SentryKind.Event))
      (runWithSentry SentryKind.Event
        ([Signal.pre SentryKind.Lumi, Signal.post SentryKind.Lumi], Outcome.fault)).1
      = [Signal.pre SentryKind.Event, Signal.post SentryKind.Event] := by
  have h := sentry_begin_end_pairing SentryKind.Event
      [Signal.pre SentryKind.Lumi, Signal.post SentryKind.Lumi] Outcome.fault (by decide)
  exact ⟨h.1, h.2.2⟩

end EdmInputSource
